import Mathlib

/-!
Verification development for the Aurora client command context
(`src/main/python/apache/aurora/client/cli/context.py`).

The Python module is shallowly embedded: every operation below mirrors the
corresponding Python function line by line.  Remote effects (API handle
lookups and `listJobs` RPCs) are made explicit as a call log, so that
"issues no remote call" becomes a statement about that log; errors raised
by the Python code become `Except.error` values.  Python's module-level
name resolution is embedded too, because the module references the name
`EXIT_COMMAND_FAILURE` without ever importing it (its import list, lines
25-30 of the source, imports `EXIT_NETWORK_ERROR` twice instead), so that
`raise` statement actually fails with a `NameError` at runtime.
-/

/-- Response codes of the scheduler RPC envelope.  The enumeration lives in
generated thrift code outside this repository; modelled from the spec:
`enum{OK, ERROR, ...}` plus the `_VALUES_TO_NAMES` table used for logging. -/
inductive ResponseCode where
  | INVALID_REQUEST
  | OK
  | ERROR
  | WARNING
  | AUTH_FAILED
deriving DecidableEq, Repr

/-- The `ResponseCode._VALUES_TO_NAMES` table from the generated thrift
module: the human-readable name of each response code. -/
def ResponseCode.pyName : ResponseCode → String
  | .INVALID_REQUEST => "INVALID_REQUEST"
  | .OK => "OK"
  | .ERROR => "ERROR"
  | .WARNING => "WARNING"
  | .AUTH_FAILED => "AUTH_FAILED"

/-- Exit classifications actually imported by the module (source lines
25-30).  `EXIT_COMMAND_FAILURE`, referenced at line 124, is deliberately
absent: the module never imports it. -/
inductive ExitCode where
  | EXIT_NETWORK_ERROR
  | EXIT_INVALID_PARAMETER
deriving DecidableEq, Repr

/-- Errors that can escape the embedded functions: a classified
`Context.CommandError`, a Python `NameError` (an unbound name was
evaluated), or a Python `TypeError`. -/
inductive Err where
  | commandError (code : ExitCode) (message : String)
  | nameError (unboundName : String)
  | typeError (message : String)
deriving DecidableEq, Repr

/-- The module's global name environment for exit-code constants, as
produced by the import block at source lines 25-30: only
`EXIT_NETWORK_ERROR` and `EXIT_INVALID_PARAMETER` are bound
(`EXIT_NETWORK_ERROR` is imported twice; `EXIT_COMMAND_FAILURE` is never
imported). -/
def moduleExitBinding (name : String) : Option ExitCode :=
  if name = "EXIT_NETWORK_ERROR" then some ExitCode.EXIT_NETWORK_ERROR
  else if name = "EXIT_INVALID_PARAMETER" then some ExitCode.EXIT_INVALID_PARAMETER
  else none

/-- Embedding of `raise self.CommandError(<name>, message)`: Python first
resolves `<name>`; if the name is unbound the statement itself raises
`NameError`, otherwise the classified `CommandError` is raised. -/
def raiseCommandError (name : String) (message : String) : Err :=
  match moduleExitBinding name with
  | some code => Err.commandError code message
  | none => Err.nameError name

/-- The thrift response envelope `(responseCode, message, result)`,
parametric in the payload type. -/
structure Response (α : Type) where
  responseCode : ResponseCode
  message : String
  result : α
deriving DecidableEq, Repr

/-- The `job.key` struct inside a `listJobs` result entry: role,
environment, name (thrift `JobKey`). -/
structure ThriftJobKey where
  role : String
  environment : String
  name : String
deriving DecidableEq, Repr

/-- One entry of `resp.result.getJobsResult.configs`. -/
structure JobConfig where
  key : ThriftJobKey
deriving DecidableEq, Repr

/-- The `getJobsResult` struct with its `configs` list. -/
structure GetJobsResultT where
  configs : List JobConfig
deriving DecidableEq, Repr

/-- The `resp.result` payload of a `listJobs` call. -/
structure ResultT where
  getJobsResult : GetJobsResultT
deriving DecidableEq, Repr

/-- `AuroraJobKey(cluster, role, env, name)`: a fully qualified job key as
constructed by `get_job_list` and `get_jobs_matching_key`. -/
structure AuroraJobKey where
  cluster : String
  role : String
  env : String
  name : String
deriving DecidableEq, Repr

/-- `PartialJobKey = namedtuple('PartialJobKey', ['cluster', 'role', 'env',
'name'])`: a job-key pattern whose slots may hold wildcards. -/
structure PartialJobKey where
  cluster : String
  role : String
  env : String
  name : String
deriving DecidableEq, Repr

/-- The four fields of a pattern, in declaration order. -/
def PartialJobKey.fields (k : PartialJobKey) : List String :=
  [k.cluster, k.role, k.env, k.name]

/-- A record of one remote interaction performed by the job lister:
`getApi c` is the API handle lookup `self.get_api(c)`, and
`getJobs c r` is the RPC `api.get_jobs(r)` against cluster `c` with role
filter `r` (`none` embeds Python `None`). -/
inductive Call where
  | getApi (cluster : String)
  | getJobs (cluster : String) (role : Option String)
deriving DecidableEq, Repr

/-- The external world seen by the resolver: the cluster registry
`CLUSTERS` and, for each cluster name, the behaviour of its scheduler
client's `get_jobs` RPC. -/
structure Env where
  CLUSTERS : List String
  getJobs : String → Option String → Response ResultT

/-- Embedding of Python's `needle in s` membership test for a single
character `needle` on a string `s` (used for `'*' in component`). -/
def pyInStr (needle : Char) (s : String) : Bool :=
  s.data.contains needle

/-- Embedding of Python's `str.split(sep)` for a one-character separator,
at the character-list level: splits at every occurrence of `sep`, keeping
empty segments; the empty input yields one empty segment, exactly as
`''.split('/') == ['']`. -/
def splitChar (sep : Char) : List Char → List (List Char)
  | [] => [[]]
  | c :: cs =>
    match splitChar sep cs with
    | [] => [[]]
    | h :: t => if c = sep then [] :: h :: t else (c :: h) :: t

/-- Python `key.split('/')` as a list of strings. -/
def pySplitSlash (key : String) : List String :=
  (splitChar '/' key.data).map String.mk

/-- The `while len(parts) < 4: parts.append('*')` loop of
`parse_partial_jobkey`, with explicit iteration fuel.  Four iterations
always reach the loop's fixed point, since each iteration grows the list
by one element and the loop stops at length 4, so `padWhile 4` is
extensionally the Python loop on every input. -/
def padWhile : Nat → List String → List String
  | 0, parts => parts
  | n + 1, parts => if parts.length < 4 then padWhile n (parts ++ ["*"]) else parts

/-- `AuroraCommandContext.parse_partial_jobkey` (source lines 98-110):
split on `/`, reject more than 4 segments with `EXIT_INVALID_PARAMETER`,
pad on the right with `"*"` to exactly 4 segments, and build the
`PartialJobKey`.  The unreachable arity-mismatch arm embeds the
`TypeError` Python would raise if `PartialJobKey(*parts)` received a
wrong number of arguments. -/
def parse_partial_jobkey (key : String) : Except Err PartialJobKey :=
  let parts := pySplitSlash key
  if parts.length > 4 then
    Except.error (raiseCommandError "EXIT_INVALID_PARAMETER"
      "Job key must have no more than 4 segments")
  else
    match padWhile 4 parts with
    | [a, b, c, d] => Except.ok ⟨a, b, c, d⟩
    | _ => Except.error (Err.typeError "PartialJobKey() takes exactly 4 arguments")

/-- Fuel-indexed glob matcher.  `Modelled from the spec:` the stdlib
`fnmatch` used at source line 141 is external to the repository; the spec
describes its semantics as shell glob matching where `*` matches any
substring and `?` matches any single character.  The fuel only drives
termination: every recursive call shrinks `s.length + p.length`, so fuel
`s.length + p.length + 1` is always enough. -/
def globMatchFuel : Nat → List Char → List Char → Bool
  | 0, _, _ => false
  | _ + 1, [], [] => true
  | fuel + 1, [], pc :: ps => pc = '*' && globMatchFuel fuel [] ps
  | _ + 1, _ :: _, [] => false
  | fuel + 1, c :: cs, pc :: ps =>
    if pc = '*' then globMatchFuel fuel (c :: cs) ps || globMatchFuel fuel cs (pc :: ps)
    else if pc = '?' then globMatchFuel fuel cs ps
    else c = pc && globMatchFuel fuel cs ps

/-- `fnmatch(name, pattern)`: does `name` match the glob `pattern`? -/
def fnmatch (name pattern : String) : Bool :=
  globMatchFuel (name.data.length + pattern.data.length + 1) name.data pattern.data

/-- The single log line emitted by `check_and_log_response` (source lines
93-94): it interpolates the response code's name and the envelope
message. -/
def schedulerLogLine {α : Type} (resp : Response α) : String :=
  "Response from scheduler: " ++ resp.responseCode.pyName ++
    " (message: " ++ resp.message ++ ")"

/-- `AuroraCommandContext.check_and_log_response` (source lines 92-96):
logs one line, then raises `CommandError(EXIT_NETWORK_ERROR, resp.message)`
when the response code is not OK.  The function body has no `return`
statement, so on the OK path Python returns `None`, embedded as
`Except.ok none`; the first component is the list of emitted log
records. -/
def check_and_log_response {α : Type} (resp : Response α) :
    List String × Except Err (Option α) :=
  let logged := [schedulerLogLine resp]
  if resp.responseCode ≠ ResponseCode.OK then
    (logged, Except.error (raiseCommandError "EXIT_NETWORK_ERROR" resp.message))
  else
    (logged, Except.ok none)

/-- The per-cluster loop body of `get_job_list` (source lines 120-126):
for each cluster, look up its API handle, issue `api.get_jobs(role)`, and
on a non-OK response execute
`raise self.CommandError(EXIT_COMMAND_FAILURE, resp.message)` — which,
because `EXIT_COMMAND_FAILURE` is unbound in the module, is a `NameError`;
otherwise extend the accumulated result with one `AuroraJobKey` per config
entry, tagged with the cluster. -/
def listClusters (env : Env) (role : Option String) :
    List String → List Call × Except Err (List AuroraJobKey)
  | [] => ([], Except.ok [])
  | c :: rest =>
    let resp := env.getJobs c role
    if resp.responseCode ≠ ResponseCode.OK then
      ([Call.getApi c, Call.getJobs c role],
        Except.error (raiseCommandError "EXIT_COMMAND_FAILURE" resp.message))
    else
      let here := resp.result.getJobsResult.configs.map
        (fun job => AuroraJobKey.mk c job.key.role job.key.environment job.key.name)
      let tail := listClusters env role rest
      (Call.getApi c :: Call.getJobs c role :: tail.1,
        tail.2.map (fun jobs => here ++ jobs))

/-- `AuroraCommandContext.get_job_list` (source lines 112-127).  The
`role` parameter defaults to Python `None` (`none` here); the body first
evaluates `'*' in role`, which on `None` raises
`TypeError: argument of type 'NoneType' is not iterable` before any
cluster is contacted, and on a string containing `'*'` replaces the role
filter by `None`; then it runs the per-cluster loop. -/
def get_job_list (env : Env) (clusters : List String) (role : Option String) :
    List Call × Except Err (List AuroraJobKey) :=
  match role with
  | none => ([], Except.error (Err.typeError "argument of type 'NoneType' is not iterable"))
  | some r =>
    let rFilter := if pyInStr '*' r then none else some r
    listClusters env rFilter clusters

/-- The nested helper `is_fully_bound` of `get_jobs_matching_key` (source
lines 135-137): true iff no component of the key contains the character
`'*'` (note: only `'*'` is tested; `'?'` is not). -/
def is_fully_bound (key : PartialJobKey) : Bool :=
  !(pyInStr '*' key.cluster || pyInStr '*' key.role ||
    pyInStr '*' key.env || pyInStr '*' key.name)

/-- The nested helper `filter_job_list` of `get_jobs_matching_key` (source
lines 139-142): keep the jobs whose role, env and name `fnmatch` the
corresponding pattern fields. -/
def filter_job_list (jobs : List AuroraJobKey) (role env name : String) :
    List AuroraJobKey :=
  jobs.filter (fun job =>
    fnmatch job.role role && fnmatch job.env env && fnmatch job.name name)

/-- `AuroraCommandContext.get_jobs_matching_key` (source lines 129-156):
narrow the cluster set (`CLUSTERS` when the cluster field equals `"*"`,
else the singleton of the literal field), short-circuit to the literal
key when the pattern is fully bound, otherwise list jobs over the
candidate clusters with `key.role` as the role argument and filter the
result with glob matching. -/
def get_jobs_matching_key (env : Env) (key : PartialJobKey) :
    List Call × Except Err (List AuroraJobKey) :=
  let clusters_to_search := if key.cluster = "*" then env.CLUSTERS else [key.cluster]
  if is_fully_bound key then
    ([], Except.ok [AuroraJobKey.mk key.cluster key.role key.env key.name])
  else
    let listed := get_job_list env clusters_to_search (some key.role)
    (listed.1, listed.2.map (fun jobs => filter_job_list jobs key.role key.env key.name))

/-- Association lookup in the `self.apis` dictionary, keyed by cluster
name. -/
def lookupApi : List (String × Nat) → String → Option Nat
  | [], _ => none
  | (c, api) :: rest, cluster => if c = cluster then some api else lookupApi rest cluster

/-- `AuroraCommandContext.get_api` (source lines 51-59).  The `self.apis`
dictionary is an association list from cluster name to handle (handles
are identified by a number, standing for object identity); `make_client`
is the construction oracle, which may fail.  Returns the list of
construction invocations made by this call, the resulting `self.apis`
state, and the outcome.  When construction raises, the exception
propagates before the dictionary assignment, so the state is returned
unchanged. -/
def get_api (make_client : String → Except Err Nat)
    (apis : List (String × Nat)) (cluster : String) :
    List String × List (String × Nat) × Except Err Nat :=
  match lookupApi apis cluster with
  | some api => ([], apis, Except.ok api)
  | none =>
    match make_client cluster with
    | Except.error e => ([cluster], apis, Except.error e)
    | Except.ok api => ([cluster], apis ++ [(cluster, api)], Except.ok api)

/-- The role filter actually handed to the remote call by `get_job_list`
for a string role argument: absent when the role contains `'*'`, the
literal role otherwise. -/
def roleFilter (role : String) : Option String :=
  if pyInStr '*' role then none else some role

/-- The cluster set `get_jobs_matching_key` queries for a pattern. -/
def searchClusters (env : Env) (key : PartialJobKey) : List String :=
  if key.cluster = "*" then env.CLUSTERS else [key.cluster]

/-- The job keys contributed by one cluster's successful listing, as
built at source lines 125-126. -/
def clusterListing (env : Env) (rFilter : Option String) (c : String) :
    List AuroraJobKey :=
  (env.getJobs c rFilter).result.getJobsResult.configs.map
    (fun job => AuroraJobKey.mk c job.key.role job.key.environment job.key.name)

/-- The slash-joined rendering of a fully qualified key, used by the
round-trip property to re-derive a pattern from a resolved key. -/
def slashJoin (k : AuroraJobKey) : String :=
  k.cluster ++ "/" ++ k.role ++ "/" ++ k.env ++ "/" ++ k.name

/-- A two-cluster world: cluster `A` lists one job successfully, every
other cluster answers with an `ERROR` envelope carrying message
`"boom"`. -/
def envTwo : Env where
  CLUSTERS := ["A", "B"]
  getJobs := fun c _ =>
    if c = "A" then
      ⟨ResponseCode.OK, "ok", ⟨⟨[⟨⟨"r1", "e1", "n1"⟩⟩]⟩⟩⟩
    else
      ⟨ResponseCode.ERROR, "boom", ⟨⟨[]⟩⟩⟩

/-- A one-cluster world: cluster `c` lists one job `(r, e, name)`
successfully, every other cluster answers with an `ERROR` envelope. -/
def envOne : Env where
  CLUSTERS := ["c"]
  getJobs := fun c _ =>
    if c = "c" then
      ⟨ResponseCode.OK, "ok", ⟨⟨[⟨⟨"r", "e", "name"⟩⟩]⟩⟩⟩
    else
      ⟨ResponseCode.ERROR, "no such cluster", ⟨⟨[]⟩⟩⟩

lemma padWhile_eq (fuel : Nat) (parts : List String)
    (h : 4 - parts.length ≤ fuel) :
    padWhile fuel parts = parts ++ List.replicate (4 - parts.length) "*" := by
  induction fuel generalizing parts with
  | zero =>
    have h4 : 4 ≤ parts.length := by omega
    have : 4 - parts.length = 0 := by omega
    simp [padWhile, this, Nat.not_lt.mpr h4]
  | succ n ih =>
    by_cases hlt : parts.length < 4
    · have hrec := ih (parts ++ ["*"]) (by simp; omega)
      have hlen : 4 - parts.length = (4 - (parts.length + 1)) + 1 := by omega
      simp only [padWhile, if_pos hlt, hrec]
      simp [hlen, List.replicate_succ]
    · have : 4 - parts.length = 0 := by omega
      simp [padWhile, hlt, this]

lemma splitChar_ne_nil (sep : Char) (l : List Char) : splitChar sep l ≠ [] := by
  cases l with
  | nil => simp [splitChar]
  | cons c cs =>
    simp only [splitChar]
    rcases h : splitChar sep cs with _ | ⟨h1, t⟩
    · simp
    · by_cases hc : c = sep <;> simp [hc]

lemma splitChar_no_sep (sep : Char) (l : List Char) (h : sep ∉ l) :
    splitChar sep l = [l] := by
  induction l with
  | nil => simp [splitChar]
  | cons c cs ih =>
    have hc : c ≠ sep := fun hcs => h (hcs ▸ List.mem_cons_self c cs)
    have hcs : sep ∉ cs := fun hm => h (List.mem_cons_of_mem c hm)
    simp [splitChar, ih hcs, hc]

lemma splitChar_append_sep (sep : Char) (a r : List Char) (h : sep ∉ a) :
    splitChar sep (a ++ sep :: r) = a :: splitChar sep r := by
  induction a with
  | nil =>
    simp only [List.nil_append, splitChar]
    rcases hr : splitChar sep r with _ | ⟨h1, t⟩
    · exact absurd hr (splitChar_ne_nil sep r)
    · simp
  | cons c cs ih =>
    have hc : c ≠ sep := fun hcs => h (hcs ▸ List.mem_cons_self c cs)
    have hcs : sep ∉ cs := fun hm => h (List.mem_cons_of_mem c hm)
    simp only [List.cons_append, splitChar, List.append_eq]
    rw [ih hcs]
    simp [hc]

lemma listClusters_all_ok (env : Env) (role : Option String) (cs : List String)
    (h : ∀ c ∈ cs, (env.getJobs c role).responseCode = ResponseCode.OK) :
    listClusters env role cs =
      (cs.flatMap (fun c => [Call.getApi c, Call.getJobs c role]),
        Except.ok (cs.flatMap (clusterListing env role))) := by
  induction cs with
  | nil => simp [listClusters]
  | cons c rest ih =>
    have hc := h c (List.mem_cons_self c rest)
    have hrest := ih (fun x hx => h x (List.mem_cons_of_mem c hx))
    simp [listClusters, hc, hrest, clusterListing, List.flatMap_cons, Except.map]

lemma listClusters_getJobs_role (env : Env) (role : Option String)
    (cs : List String) (c : String) (r' : Option String)
    (h : Call.getJobs c r' ∈ (listClusters env role cs).1) : r' = role := by
  induction cs with
  | nil => simp [listClusters] at h
  | cons c0 rest ih =>
    by_cases hok : (env.getJobs c0 role).responseCode = ResponseCode.OK
    · simp only [listClusters, ne_eq, hok, not_true_eq_false, if_false] at h
      rcases List.mem_cons.mp h with h1 | h2
      · exact absurd h1 (by simp)
      · rcases List.mem_cons.mp h2 with h3 | h4
        · exact (Call.getJobs.injEq _ _ _ _).mp h3 |>.2
        · exact ih h4
    · simp only [listClusters, ne_eq, hok, not_false_eq_true, if_true] at h
      rcases List.mem_cons.mp h with h1 | h2
      · exact absurd h1 (by simp)
      · have h3 : c = c0 ∧ r' = role := by simpa using h2
        exact h3.2

lemma length_four_exists {α : Type} (l : List α) (h : l.length = 4) :
    ∃ a b c d, l = [a, b, c, d] := by
  rcases l with _ | ⟨a, l⟩
  · simp at h
  rcases l with _ | ⟨b, l⟩
  · simp at h
  rcases l with _ | ⟨c, l⟩
  · simp at h
  rcases l with _ | ⟨d, l⟩
  · simp at h
  rcases l with _ | ⟨e, l⟩
  · exact ⟨a, b, c, d, rfl⟩
  · simp at h

/-- C10: calling `get_job_list` with its declared default `role=None`
evaluates the membership test `'*' in role` on `None`, which raises a
`TypeError` before any cluster is contacted — the call log is empty and
the outcome is the `TypeError`, for every environment and cluster list. -/
theorem C10_get_job_list_none_role_type_error (env : Env) (clusters : List String) :
    get_job_list env clusters none =
      ([], Except.error (Err.typeError "argument of type 'NoneType' is not iterable")) :=
  rfl

/-- C2 counterexample: on an OK envelope with payload `7`,
`check_and_log_response` emits exactly one log record but returns Python
`None` (the function has no `return` statement), not the payload, so the
claim that it "returns the envelope's payload unmodified" is false. -/
theorem C2_counterexample :
    check_and_log_response (Response.mk ResponseCode.OK "hi" (7 : Nat)) =
      (["Response from scheduler: OK (message: hi)"], Except.ok none) ∧
    (check_and_log_response (Response.mk ResponseCode.OK "hi" (7 : Nat))).2 ≠
      Except.ok (some 7) := by
  refine ⟨rfl, fun hcon => ?_⟩
  exact Option.noConfusion (Except.ok.inj hcon)

/-- C2 (amended): for every envelope, `check_and_log_response` emits
exactly one log record, interpolating the response-code name and the
message; on an OK envelope it then returns `None` (not the payload), and
on a non-OK envelope it raises
`CommandError(EXIT_NETWORK_ERROR, resp.message)` after that same single
log record. -/
theorem C2_check_and_log_response_spec {α : Type} (resp : Response α) :
    check_and_log_response resp =
      ([schedulerLogLine resp],
        if resp.responseCode = ResponseCode.OK then Except.ok none
        else Except.error
          (Err.commandError ExitCode.EXIT_NETWORK_ERROR resp.message)) := by
  by_cases h : resp.responseCode = ResponseCode.OK <;>
    simp [check_and_log_response, h, raiseCommandError, moduleExitBinding]

/-- C5: `parse_partial_jobkey` rejects inputs splitting into more than 4
segments with `CommandError(EXIT_INVALID_PARAMETER, ...)`, and on an
input with `k ≤ 4` segments succeeds with a pattern whose field list is
exactly the segments followed by `4 - k` copies of the wildcard token. -/
theorem C5_parse_partial_jobkey_spec (key : String) :
    (4 < (pySplitSlash key).length →
      parse_partial_jobkey key =
        Except.error (Err.commandError ExitCode.EXIT_INVALID_PARAMETER
          "Job key must have no more than 4 segments")) ∧
    ((pySplitSlash key).length ≤ 4 →
      ∃ p : PartialJobKey, parse_partial_jobkey key = Except.ok p ∧
        p.fields = pySplitSlash key ++
          List.replicate (4 - (pySplitSlash key).length) "*") := by
  constructor
  · intro hgt
    simp [parse_partial_jobkey, if_pos hgt, raiseCommandError, moduleExitBinding]
  · intro hle
    have hpad : padWhile 4 (pySplitSlash key) =
        pySplitSlash key ++ List.replicate (4 - (pySplitSlash key).length) "*" :=
      padWhile_eq 4 (pySplitSlash key) (by omega)
    have hlen : (pySplitSlash key ++
        List.replicate (4 - (pySplitSlash key).length) "*").length = 4 := by
      simp; omega
    obtain ⟨a, b, c, d, habcd⟩ := length_four_exists _ hlen
    refine ⟨⟨a, b, c, d⟩, ?_, ?_⟩
    · simp only [parse_partial_jobkey, hpad, habcd]
      rw [if_neg (by omega)]
    · simp [PartialJobKey.fields, habcd]

/-- C5 witness: the over-long input `a/b/c/d/e` is rejected and the
two-segment input `c/r` parses with two literal fields and two wildcard
fields. -/
theorem C5_parse_partial_jobkey_spec_witness :
    parse_partial_jobkey "a/b/c/d/e" =
      Except.error (Err.commandError ExitCode.EXIT_INVALID_PARAMETER
        "Job key must have no more than 4 segments") ∧
    (∃ p : PartialJobKey, parse_partial_jobkey "c/r" = Except.ok p ∧
      p.fields = pySplitSlash "c/r" ++
        List.replicate (4 - (pySplitSlash "c/r").length) "*") := by
  constructor
  · exact (C5_parse_partial_jobkey_spec "a/b/c/d/e").1 (by decide)
  · exact (C5_parse_partial_jobkey_spec "c/r").2 (by decide)

/-- C4: a pattern none of whose four fields contains a wildcard character
(`*` or `?`) takes the fully-bound fast path: `get_jobs_matching_key`
performs no handle lookup and no `listJobs` RPC (its call log is empty)
and returns exactly the singleton key built from the literal fields. -/
theorem C4_fully_bound_fast_path (env : Env) (key : PartialJobKey)
    (hstar : ∀ f ∈ key.fields, pyInStr '*' f = false)
    (_hqm : ∀ f ∈ key.fields, pyInStr '?' f = false) :
    get_jobs_matching_key env key =
      ([], Except.ok [AuroraJobKey.mk key.cluster key.role key.env key.name]) := by
  have h1 := hstar key.cluster (by simp [PartialJobKey.fields])
  have h2 := hstar key.role (by simp [PartialJobKey.fields])
  have h3 := hstar key.env (by simp [PartialJobKey.fields])
  have h4 := hstar key.name (by simp [PartialJobKey.fields])
  have hfb : is_fully_bound key = true := by
    simp [is_fully_bound, h1, h2, h3, h4]
  simp [get_jobs_matching_key, hfb]

/-- C4 witness: the literal pattern `c/r/e/n` resolves to its own key
with an empty call log. -/
theorem C4_fully_bound_fast_path_witness :
    get_jobs_matching_key envOne (PartialJobKey.mk "c" "r" "e" "n") =
      ([], Except.ok [AuroraJobKey.mk "c" "r" "e" "n"]) :=
  C4_fully_bound_fast_path envOne (PartialJobKey.mk "c" "r" "e" "n")
    (by decide) (by decide)

/-- C3 counterexample: the pattern `(c, r, e, na?e)` contains the wildcard
`?` (and the cluster's listing holds the job `(r, e, name)`, which
glob-matches it), yet `get_jobs_matching_key` issues no remote call and
returns the literal key `(c, r, e, na?e)` — not the matching key from the
listing — because the fully-bound check only looks for `*`. -/
theorem C3_counterexample :
    pyInStr '?' "na?e" = true ∧
    fnmatch "name" "na?e" = true ∧
    get_jobs_matching_key envOne (PartialJobKey.mk "c" "r" "e" "na?e") =
      ([], Except.ok [AuroraJobKey.mk "c" "r" "e" "na?e"]) ∧
    AuroraJobKey.mk "c" "r" "e" "name" ∉ [AuroraJobKey.mk "c" "r" "e" "na?e"] := by
  refine ⟨by decide, by decide, rfl, by decide⟩

/-- C3 (amended): for every pattern in which at least one field contains
the character `*` (the condition the code actually tests; a pattern whose
only wildcards are `?` takes the fully-bound fast path instead), and
whose queried clusters all answer OK, `get_jobs_matching_key` queries the
narrowed cluster set (all of `CLUSTERS` when the cluster field is exactly
`*`, else the singleton of the cluster field) and returns exactly the
jobs of those listings whose role, environment and name glob-match the
pattern fields. -/
theorem C3_wildcard_listing_path (env : Env) (key : PartialJobKey)
    (hw : ∃ f ∈ key.fields, pyInStr '*' f = true)
    (hok : ∀ c ∈ searchClusters env key,
      (env.getJobs c (roleFilter key.role)).responseCode = ResponseCode.OK) :
    get_jobs_matching_key env key =
      ((searchClusters env key).flatMap
          (fun c => [Call.getApi c, Call.getJobs c (roleFilter key.role)]),
        Except.ok (((searchClusters env key).flatMap
            (clusterListing env (roleFilter key.role))).filter
          (fun job => fnmatch job.role key.role && fnmatch job.env key.env &&
            fnmatch job.name key.name))) := by
  have hfb : is_fully_bound key = false := by
    obtain ⟨f, hmem, hf⟩ := hw
    simp only [PartialJobKey.fields, List.mem_cons, List.not_mem_nil, or_false] at hmem
    rcases hmem with h | h | h | h <;> subst h <;> simp [is_fully_bound, hf]
  have hlist := listClusters_all_ok env (roleFilter key.role) (searchClusters env key) hok
  simp only [get_jobs_matching_key, hfb, if_false, get_job_list, roleFilter,
    searchClusters] at hlist ⊢
  rw [hlist]
  simp [filter_job_list, Except.map]

/-- C3 witness: the pattern `(c, r, e, n*)` lists cluster `c` and keeps
exactly the glob-matching job `(c, r, e, name)`. -/
theorem C3_wildcard_listing_path_witness :
    get_jobs_matching_key envOne (PartialJobKey.mk "c" "r" "e" "n*") =
      ((searchClusters envOne (PartialJobKey.mk "c" "r" "e" "n*")).flatMap
          (fun c => [Call.getApi c,
            Call.getJobs c (roleFilter (PartialJobKey.mk "c" "r" "e" "n*").role)]),
        Except.ok (((searchClusters envOne (PartialJobKey.mk "c" "r" "e" "n*")).flatMap
            (clusterListing envOne
              (roleFilter (PartialJobKey.mk "c" "r" "e" "n*").role))).filter
          (fun job => fnmatch job.role (PartialJobKey.mk "c" "r" "e" "n*").role &&
            fnmatch job.env (PartialJobKey.mk "c" "r" "e" "n*").env &&
            fnmatch job.name (PartialJobKey.mk "c" "r" "e" "n*").name))) :=
  C3_wildcard_listing_path envOne (PartialJobKey.mk "c" "r" "e" "n*")
    (by exact ⟨"n*", by decide, by decide⟩) (by decide)

/-- C1 counterexample: over clusters `[A, B]` where A answers OK and B
answers `ERROR` with message `boom`, `get_job_list` does abort without
returning A's jobs, but the raised error is a `NameError` for the
unimported module constant `EXIT_COMMAND_FAILURE` — not a
`CommandError` classified `EXIT_NETWORK_ERROR` carrying B's message. -/
theorem C1_counterexample :
    (envTwo.getJobs "A" none).responseCode = ResponseCode.OK ∧
    (envTwo.getJobs "B" none).responseCode ≠ ResponseCode.OK ∧
    (get_job_list envTwo ["A", "B"] (some "*")).2 =
      Except.error (Err.nameError "EXIT_COMMAND_FAILURE") ∧
    (get_job_list envTwo ["A", "B"] (some "*")).2 ≠
      Except.error (Err.commandError ExitCode.EXIT_NETWORK_ERROR "boom") := by
  refine ⟨rfl, by decide, rfl, fun hcon => ?_⟩
  exact Err.noConfusion (Except.error.inj hcon)

/-- C1 (amended): over clusters `[A, B]` where A's listing answers OK and
B's does not, `get_job_list` performs both cluster's calls in order and
aborts with an error — a `NameError` naming the unimported constant
`EXIT_COMMAND_FAILURE` (so B's envelope message is lost rather than
carried), the `raise self.CommandError(EXIT_COMMAND_FAILURE, ...)` at
source line 124 never completing — and A's already-fetched jobs are never
returned. -/
theorem C1_fail_fast_raises_name_error (env : Env) (A B : String) (role : String)
    (hA : (env.getJobs A (roleFilter role)).responseCode = ResponseCode.OK)
    (hB : (env.getJobs B (roleFilter role)).responseCode ≠ ResponseCode.OK) :
    get_job_list env [A, B] (some role) =
      ([Call.getApi A, Call.getJobs A (roleFilter role),
        Call.getApi B, Call.getJobs B (roleFilter role)],
        Except.error (Err.nameError "EXIT_COMMAND_FAILURE")) := by
  show listClusters env (roleFilter role) [A, B] = _
  simp [listClusters, hA, hB, raiseCommandError, moduleExitBinding, Except.map]

/-- C1 witness: the concrete two-cluster world `envTwo` with the
wildcard role exhibits the abort after both calls. -/
theorem C1_fail_fast_raises_name_error_witness :
    get_job_list envTwo ["A", "B"] (some "*") =
      ([Call.getApi "A", Call.getJobs "A" (roleFilter "*"),
        Call.getApi "B", Call.getJobs "B" (roleFilter "*")],
        Except.error (Err.nameError "EXIT_COMMAND_FAILURE")) :=
  C1_fail_fast_raises_name_error envTwo "A" "B" "*" (by decide) (by decide)

/-- C6 counterexample: the role argument `web*` is not the wildcard token
`*`, yet `get_job_list` passes the role filter as absent (`None`) to the
remote call, because the code tests `'*' in role` (substring containment)
rather than equality with the token. -/
theorem C6_counterexample :
    ("web*" : String) ≠ "*" ∧
    (get_job_list envOne ["c"] (some "web*")).1 =
      [Call.getApi "c", Call.getJobs "c" none] ∧
    Call.getJobs "c" (some "web*") ∉ (get_job_list envOne ["c"] (some "web*")).1 := by
  refine ⟨by decide, rfl, by decide⟩

/-- C6 (amended): every `listJobs` RPC issued by `get_job_list` for a
string role argument carries the role filter as absent exactly when the
role contains the character `*` anywhere (not only when it equals the
token `*`), and carries the literal role otherwise. -/
theorem C6_role_filter_contains_star (env : Env) (clusters : List String)
    (role : String) (c : String) (r' : Option String)
    (h : Call.getJobs c r' ∈ (get_job_list env clusters (some role)).1) :
    r' = roleFilter role := by
  simp only [get_job_list] at h
  exact listClusters_getJobs_role env (roleFilter role) clusters c r' h

/-- C6 witness: in the concrete world, the RPC against cluster `c` for
role `web*` carried an absent filter, and the theorem identifies it with
`roleFilter "web*" = none`. -/
theorem C6_role_filter_contains_star_witness :
    (none : Option String) = roleFilter "web*" ∧ roleFilter "web*" = none := by
  refine ⟨C6_role_filter_contains_star envOne ["c"] "web*" "c" none (by decide), by decide⟩

/-- C8 counterexample: the pattern `(c, r, e, "")` has an empty name field
and no `*`, so the fast path returns the key `(c, r, e, "")` — a produced
`AuroraJobKey` with an empty field, refuting the invariant that every
resolved key has four non-empty, wildcard-free fields. -/
theorem C8_counterexample :
    (get_jobs_matching_key envOne (PartialJobKey.mk "c" "r" "e" "")).2 =
      Except.ok [AuroraJobKey.mk "c" "r" "e" ""] ∧
    (AuroraJobKey.mk "c" "r" "e" "").name = "" := by
  exact ⟨rfl, rfl⟩

/-- C8 (amended): every key produced by the fully-bound fast path of
`get_jobs_matching_key` has four fields each free of the character `*`
(they may be empty or contain `?`; keys from the wildcard listing path
carry whatever field strings the remote listing returned, unconstrained
by the code). -/
theorem C8_fast_path_keys_star_free (env : Env) (key : PartialJobKey)
    (hfb : is_fully_bound key = true) (jobs : List AuroraJobKey) (k : AuroraJobKey)
    (hres : (get_jobs_matching_key env key).2 = Except.ok jobs) (hk : k ∈ jobs) :
    pyInStr '*' k.cluster = false ∧ pyInStr '*' k.role = false ∧
    pyInStr '*' k.env = false ∧ pyInStr '*' k.name = false := by
  have hfb4 : pyInStr '*' key.cluster = false ∧ pyInStr '*' key.role = false ∧
      pyInStr '*' key.env = false ∧ pyInStr '*' key.name = false := by
    have hflat := hfb
    simp [is_fully_bound] at hflat
    exact ⟨hflat.1.1.1, hflat.1.1.2, hflat.1.2, hflat.2⟩
  simp only [get_jobs_matching_key, hfb, if_true] at hres
  have hjobs : [AuroraJobKey.mk key.cluster key.role key.env key.name] = jobs :=
    Except.ok.inj hres
  subst hjobs
  have hk2 : k = AuroraJobKey.mk key.cluster key.role key.env key.name := by
    simpa using hk
  subst hk2
  exact hfb4

/-- C8 witness: the fast-path key of the literal pattern `(c, r, e, n)`
has star-free fields. -/
theorem C8_fast_path_keys_star_free_witness :
    pyInStr '*' (AuroraJobKey.mk "c" "r" "e" "n").cluster = false ∧
    pyInStr '*' (AuroraJobKey.mk "c" "r" "e" "n").role = false ∧
    pyInStr '*' (AuroraJobKey.mk "c" "r" "e" "n").env = false ∧
    pyInStr '*' (AuroraJobKey.mk "c" "r" "e" "n").name = false :=
  C8_fast_path_keys_star_free envOne (PartialJobKey.mk "c" "r" "e" "n")
    (by decide) [AuroraJobKey.mk "c" "r" "e" "n"] (AuroraJobKey.mk "c" "r" "e" "n")
    rfl (by decide)

lemma pySplitSlash_slashJoin (k : AuroraJobKey)
    (hc : ('/' : Char) ∉ k.cluster.data) (hr : ('/' : Char) ∉ k.role.data)
    (he : ('/' : Char) ∉ k.env.data) (hn : ('/' : Char) ∉ k.name.data) :
    pySplitSlash (slashJoin k) = [k.cluster, k.role, k.env, k.name] := by
  have hslash : ("/" : String).data = ['/'] := rfl
  have hdata : (slashJoin k).data =
      k.cluster.data ++ '/' :: (k.role.data ++ '/' :: (k.env.data ++ '/' :: k.name.data)) := by
    simp [slashJoin, String.data_append, hslash]
  simp only [pySplitSlash, hdata]
  rw [splitChar_append_sep '/' _ _ hc, splitChar_append_sep '/' _ _ hr,
    splitChar_append_sep '/' _ _ he, splitChar_no_sep '/' _ hn]
  rfl

lemma parse_partial_jobkey_of_four (s : String) (a b c d : String)
    (h : pySplitSlash s = [a, b, c, d]) :
    parse_partial_jobkey s = Except.ok (PartialJobKey.mk a b c d) := by
  simp only [parse_partial_jobkey, h]
  rfl

/-- C9 counterexample: the pattern `(c, "a/b", e, n)` is fully bound (no
wildcard), resolves to the single key `(c, "a/b", e, n)`, but re-parsing
the slash-joined fields of that key fails with the invalid-parameter
error (five segments), so the round-trip does not yield the identical
key. -/
theorem C9_counterexample :
    (get_jobs_matching_key envOne (PartialJobKey.mk "c" "a/b" "e" "n")).2 =
      Except.ok [AuroraJobKey.mk "c" "a/b" "e" "n"] ∧
    parse_partial_jobkey (slashJoin (AuroraJobKey.mk "c" "a/b" "e" "n")) =
      Except.error (Err.commandError ExitCode.EXIT_INVALID_PARAMETER
        "Job key must have no more than 4 segments") := by
  exact ⟨rfl, rfl⟩

/-- C9 (amended): for every fully bound pattern (no `*` in any field)
whose four fields also contain no `/` character, resolving yields the
single literal key, and re-parsing the slash-joined fields of that key
yields a pattern with the identical four fields. -/
theorem C9_round_trip (env : Env) (key : PartialJobKey)
    (hfb : is_fully_bound key = true)
    (hc : ('/' : Char) ∉ key.cluster.data) (hr : ('/' : Char) ∉ key.role.data)
    (he : ('/' : Char) ∉ key.env.data) (hn : ('/' : Char) ∉ key.name.data) :
    (get_jobs_matching_key env key).2 =
      Except.ok [AuroraJobKey.mk key.cluster key.role key.env key.name] ∧
    parse_partial_jobkey
        (slashJoin (AuroraJobKey.mk key.cluster key.role key.env key.name)) =
      Except.ok key := by
  constructor
  · simp [get_jobs_matching_key, hfb]
  · exact parse_partial_jobkey_of_four _ key.cluster key.role key.env key.name
      (pySplitSlash_slashJoin (AuroraJobKey.mk key.cluster key.role key.env key.name)
        hc hr he hn)

/-- C9 witness: the literal pattern `(c, r, e, n)` round-trips through
resolution and re-parsing. -/
theorem C9_round_trip_witness :
    (get_jobs_matching_key envOne (PartialJobKey.mk "c" "r" "e" "n")).2 =
      Except.ok [AuroraJobKey.mk "c" "r" "e" "n"] ∧
    parse_partial_jobkey (slashJoin (AuroraJobKey.mk "c" "r" "e" "n")) =
      Except.ok (PartialJobKey.mk "c" "r" "e" "n") :=
  C9_round_trip envOne (PartialJobKey.mk "c" "r" "e" "n")
    (by decide) (by decide) (by decide) (by decide) (by decide)

lemma lookupApi_append_self (apis : List (String × Nat)) (c : String) (h : Nat)
    (habsent : lookupApi apis c = none) :
    lookupApi (apis ++ [(c, h)]) c = some h := by
  induction apis with
  | nil => simp [lookupApi]
  | cons p rest ih =>
    obtain ⟨c0, a0⟩ := p
    by_cases hc : c0 = c
    · simp [lookupApi, hc] at habsent
    · simp only [List.cons_append, lookupApi, if_neg hc] at habsent ⊢
      exact ih habsent

/-- C7: starting from a state with no entry for cluster `c`, a successful
`get_api` constructs exactly once and caches; a second call for `c`
constructs zero times and returns the identical handle; a failed
construction leaves the state unchanged (the failure is not cached), so a
subsequent call for `c` invokes construction again and can succeed. -/
theorem C7_get_api_cache (apis : List (String × Nat)) (c : String)
    (mkOk mkFail mkRetry : String → Except Err Nat) (h h2 : Nat) (e : Err)
    (habsent : lookupApi apis c = none)
    (hS : mkOk c = Except.ok h)
    (hF : mkFail c = Except.error e)
    (hR : mkRetry c = Except.ok h2) :
    get_api mkOk apis c = ([c], apis ++ [(c, h)], Except.ok h) ∧
    get_api mkRetry (apis ++ [(c, h)]) c = ([], apis ++ [(c, h)], Except.ok h) ∧
    get_api mkFail apis c = ([c], apis, Except.error e) ∧
    get_api mkRetry apis c = ([c], apis ++ [(c, h2)], Except.ok h2) := by
  refine ⟨?_, ?_, ?_, ?_⟩
  · simp [get_api, habsent, hS]
  · simp [get_api, lookupApi_append_self apis c h habsent]
  · simp [get_api, habsent, hF]
  · simp [get_api, habsent, hR]

/-- C7 witness: with an empty cache, cluster `c`, a constructor returning
handle 1, a failing constructor, and a retry constructor returning
handle 2, all four cache behaviours hold concretely. -/
theorem C7_get_api_cache_witness :
    get_api (fun _ => Except.ok 1) [] "c" =
      (["c"], [("c", 1)], Except.ok 1) ∧
    get_api (fun _ => Except.ok 2) [("c", 1)] "c" =
      ([], [("c", 1)], Except.ok 1) ∧
    get_api (fun _ => Except.error (Err.typeError "construction failed")) [] "c" =
      (["c"], [], Except.error (Err.typeError "construction failed")) ∧
    get_api (fun _ => Except.ok 2) [] "c" =
      (["c"], [("c", 2)], Except.ok 2) :=
  C7_get_api_cache [] "c" (fun _ => Except.ok 1)
    (fun _ => Except.error (Err.typeError "construction failed"))
    (fun _ => Except.ok 2) 1 2 (Err.typeError "construction failed")
    rfl rfl rfl rfl
